import Mathlib

/-!
Verification of the PortalBox application (portal_fsm.py, service.py,
Database.py) via a shallow embedding in Lean 4.

The FSM of portal_fsm.py mutates a single Python object: `next_state`
rebinds `self.__class__` and invokes the new class's `on_enter`.  We embed
the object as the record `Machine`; each `next_state(X, input)` call site
becomes the function `enter_X`, which records the entered state, sets the
state tag and performs X's `on_enter` side effects in source order.  Each
state's `__call__` body becomes a branch of `fsm_call`; Python's sequential
`if` statements (not `elif`) are embedded as sequential rebinding of the
machine, exactly as the mutation happens in the source.

Observable side effects (power relay, access-attempt / completion /
shutdown logging, user emails) are recorded in lists inside `Machine`.
Wall-clock time is an integer number of seconds supplied with each input
(`datetime.now()` at the tick).
-/

namespace PortalBox

/-- Card classification, from CardType (referenced by portal_fsm.py and
Database.py; the enum values used in the sources are these five). -/
inductive CardType where
  | INVALID_CARD
  | SHUTDOWN_CARD
  | PROXY_CARD
  | USER_CARD
  | TRAINING_CARD
deriving DecidableEq

/-- The state classes of portal_fsm.py. -/
inductive StateName where
  | Setup
  | Shutdown
  | IdleNoCard
  | AccessComplete
  | IdleUnknownCard
  | RunningUnknownCard
  | RunningAuthUser
  | IdleUnauthCard
  | RunningNoCard
  | RunningUnauthCard
  | RunningTimeout
  | IdleAuthCard
  | RunningProxyCard
  | RunningTrainingCard
deriving DecidableEq

/-- The input dictionary built by the input assembler (service.py
get_inputs), plus the current instant `now` standing for the
`datetime.now()` calls made during the tick. -/
structure InputData where
  card_id : Int
  user_is_authorized : Bool
  card_type : CardType
  user_authority_level : Int
  button_pressed : Bool
  now : Int
deriving DecidableEq

/-- Notification events sent by the service on behalf of IdleAuthCard's
on_enter (send_user_email, send_user_email_proxy, send_user_email_training
in service.py). -/
inductive EmailEvent where
  | cardLeft (card_id : Int)
  | proxyLeft (auth_id : Int)
  | trainingLeft (auth_id trainee_id : Int)
deriving DecidableEq

/-- Service-level configuration fixed at setup: the equipment profile's
timeout (minutes) and allow_proxy flag, and the configured grace period
(seconds). -/
structure Config where
  timeout_minutes : Int
  allow_proxy : Int
  grace_period : Int
deriving DecidableEq

/-- The FSM object of portal_fsm.py: the current state class, the shared
session fields of class State, the two timers, the deltas fixed at Setup,
and the observable side-effect history. `power` is the last value passed
to set_equipment_power_on (none before the first call).  `entered` is the
chronological log of states entered via next_state. -/
structure Machine where
  state : StateName
  auth_user_id : Int
  proxy_id : Int
  training_id : Int
  user_authority_level : Int
  timeout_start : Int
  grace_start : Int
  timeout_delta : Int
  grace_delta : Int
  allow_proxy : Int
  power : Option Bool
  attempts : List (Int × Bool)
  completions : List Int
  shutdowns : List Int
  emails : List EmailEvent
  entered : List StateName
deriving DecidableEq

/-- State.timeout_expired: the timeout period for the equipment type is
finite (service.timeout_minutes > 0) and more than timeout_delta has
passed since timeout_start. -/
def timeout_expired (cfg : Config) (m : Machine) (now : Int) : Bool :=
  cfg.timeout_minutes > 0 && (now - m.timeout_start > m.timeout_delta)

/-- State.grace_expired: more than grace_delta has passed since
grace_start. -/
def grace_expired (m : Machine) (now : Int) : Bool :=
  now - m.grace_start > m.grace_delta

/-- next_state bookkeeping shared by every transition: set the new state
class and append it to the entered log. -/
def enterState (m : Machine) (s : StateName) : Machine :=
  { m with state := s, entered := m.entered ++ [s] }

/-- next_state(IdleNoCard, _): on_enter only sleeps the display. -/
def enter_IdleNoCard (m : Machine) (_i : InputData) : Machine :=
  enterState m .IdleNoCard

/-- next_state(Shutdown, _): Shutdown has the default on_enter, which only
logs; its work happens in its `__call__`. -/
def enter_Shutdown (m : Machine) (_i : InputData) : Machine :=
  enterState m .Shutdown

/-- next_state(RunningUnknownCard, _): default on_enter, no side
effects. -/
def enter_RunningUnknownCard (m : Machine) (_i : InputData) : Machine :=
  enterState m .RunningUnknownCard

/-- next_state(RunningAuthUser, _): on_enter resets timeout_start, clears
proxy_id and training_id, turns the power on, logs an access attempt when
the card differs from auth_user_id, then stores card_id and the card's
authority level. -/
def enter_RunningAuthUser (m : Machine) (i : InputData) : Machine :=
  let m := enterState m .RunningAuthUser
  let m := { m with timeout_start := i.now, proxy_id := 0, training_id := 0,
                    power := some true }
  let m := if m.auth_user_id ≠ i.card_id
           then { m with attempts := m.attempts ++ [(i.card_id, true)] }
           else m
  { m with auth_user_id := i.card_id,
           user_authority_level := i.user_authority_level }

/-- next_state(IdleUnauthCard, _): on_enter turns the power off and logs a
failed access attempt. -/
def enter_IdleUnauthCard (m : Machine) (i : InputData) : Machine :=
  let m := enterState m .IdleUnauthCard
  { m with power := some false,
           attempts := m.attempts ++ [(i.card_id, false)] }

/-- next_state(AccessComplete, _): on_enter logs an access completion for
auth_user_id, turns the power off, clears the four session fields, and
immediately transitions onward to IdleNoCard. -/
def enter_AccessComplete (m : Machine) (i : InputData) : Machine :=
  let m := enterState m .AccessComplete
  let m := { m with completions := m.completions ++ [m.auth_user_id],
                    power := some false, proxy_id := 0, training_id := 0,
                    auth_user_id := 0, user_authority_level := 0 }
  enter_IdleNoCard m i

/-- next_state(IdleUnknownCard, _): on_enter classifies the card and
immediately transitions to Shutdown, RunningAuthUser or IdleUnauthCard. -/
def enter_IdleUnknownCard (m : Machine) (i : InputData) : Machine :=
  let m := enterState m .IdleUnknownCard
  if i.card_type = .SHUTDOWN_CARD then enter_Shutdown m i
  else if i.user_is_authorized ∧ i.card_type = .USER_CARD then
    enter_RunningAuthUser m i
  else enter_IdleUnauthCard m i

/-- next_state(RunningNoCard, _): on_enter records grace_start; display
flashing and beeping are untracked device effects. -/
def enter_RunningNoCard (m : Machine) (i : InputData) : Machine :=
  let m := enterState m .RunningNoCard
  { m with grace_start := i.now }

/-- next_state(RunningUnauthCard, _): on_enter records grace_start. -/
def enter_RunningUnauthCard (m : Machine) (i : InputData) : Machine :=
  let m := enterState m .RunningUnauthCard
  { m with grace_start := i.now }

/-- next_state(RunningTimeout, _): on_enter records grace_start. -/
def enter_RunningTimeout (m : Machine) (i : InputData) : Machine :=
  let m := enterState m .RunningTimeout
  { m with grace_start := i.now }

/-- next_state(IdleAuthCard, _): on_enter turns the power off, logs an
access completion for auth_user_id, then runs the notification code of
the source (an `if` on proxy_id followed by a separate `if`/`else` on
training_id), then clears the four session fields. -/
def enter_IdleAuthCard (m : Machine) (i : InputData) : Machine :=
  let m := enterState m .IdleAuthCard
  let m := { m with power := some false,
                    completions := m.completions ++ [m.auth_user_id] }
  let m := if m.proxy_id > 0
           then { m with emails := m.emails ++ [EmailEvent.proxyLeft m.auth_user_id] }
           else m
  let m := if m.training_id > 0
           then { m with
                  emails := m.emails ++ [EmailEvent.trainingLeft m.auth_user_id m.training_id] }
           else { m with emails := m.emails ++ [EmailEvent.cardLeft i.card_id] }
  { m with proxy_id := 0, training_id := 0, auth_user_id := 0,
           user_authority_level := 0 }

/-- next_state(RunningProxyCard, _): on_enter resets timeout_start, clears
training_id, logs an access attempt when the proxy card is new, stores
proxy_id and turns the power on. -/
def enter_RunningProxyCard (m : Machine) (i : InputData) : Machine :=
  let m := enterState m .RunningProxyCard
  let m := { m with timeout_start := i.now, training_id := 0 }
  let m := if m.proxy_id ≠ i.card_id
           then { m with attempts := m.attempts ++ [(i.card_id, true)] }
           else m
  { m with proxy_id := i.card_id, power := some true }

/-- next_state(RunningTrainingCard, _): on_enter resets timeout_start,
clears proxy_id, logs an access attempt when the training card is new,
stores training_id and turns the power on. -/
def enter_RunningTrainingCard (m : Machine) (i : InputData) : Machine :=
  let m := enterState m .RunningTrainingCard
  let m := { m with timeout_start := i.now, proxy_id := 0 }
  let m := if m.training_id ≠ i.card_id
           then { m with attempts := m.attempts ++ [(i.card_id, true)] }
           else m
  { m with training_id := i.card_id, power := some true }

/-- One FSM tick: the `__call__` body of the current state class.  Python
sequences plain `if` statements and mutates `self`; this is embedded as
sequential rebinding of the machine, so a later condition is evaluated
against the machine as already modified by an earlier branch, exactly as
in the source. -/
def fsm_call (cfg : Config) (m : Machine) (i : InputData) : Machine :=
  match m.state with
  | .Setup => m
  | .Shutdown =>
      { m with power := some false, shutdowns := m.shutdowns ++ [i.card_id] }
  | .IdleNoCard =>
      if i.card_id > 0 then enter_IdleUnknownCard m i else m
  | .AccessComplete => m
  | .IdleUnknownCard => m
  | .RunningUnknownCard =>
      if i.card_type = .PROXY_CARD then
        if m.allow_proxy = 1 ∧ m.training_id ≤ 0 then
          enter_RunningProxyCard m i
        else
          enter_RunningUnauthCard m i
      else if i.card_type = .USER_CARD then
        if i.card_id = m.auth_user_id then
          enter_RunningAuthUser m i
        else if m.user_authority_level ≥ 3 ∧ m.proxy_id ≤ 0
                ∧ (m.training_id ≤ 0 ∨ m.training_id = i.card_id)
                ∧ ¬i.user_is_authorized then
          enter_RunningTrainingCard m i
        else
          enter_RunningUnauthCard m i
      else
        enter_AccessComplete m i
  | .RunningAuthUser =>
      let m := if i.card_id ≤ 0 then enter_RunningNoCard m i else m
      if timeout_expired cfg m i.now then enter_RunningTimeout m i else m
  | .IdleUnauthCard =>
      if i.card_id ≤ 0 then enter_IdleNoCard m i else m
  | .RunningNoCard =>
      let m := if i.card_id > 0 ∧ i.card_type ≠ .INVALID_CARD
               then enter_RunningUnknownCard m i else m
      let m := if grace_expired m i.now then enter_AccessComplete m i else m
      if i.button_pressed then enter_AccessComplete m i else m
  | .RunningUnauthCard =>
      let m := if i.card_id > 0 ∧ i.card_id = m.auth_user_id
               then enter_RunningUnknownCard m i else m
      let m := if grace_expired m i.now then enter_AccessComplete m i else m
      if i.button_pressed then enter_AccessComplete m i else m
  | .RunningTimeout =>
      let m := if i.button_pressed then enter_RunningUnknownCard m i else m
      let m := if i.card_id ≤ 0 then enter_AccessComplete m i else m
      if grace_expired m i.now then enter_IdleAuthCard m i else m
  | .IdleAuthCard =>
      if i.card_id ≤ 0 then enter_IdleNoCard m i else m
  | .RunningProxyCard =>
      let m := if i.card_id ≤ 0 then enter_RunningNoCard m i else m
      if timeout_expired cfg m i.now then enter_RunningTimeout m i else m
  | .RunningTrainingCard =>
      let m := if i.card_id ≤ 0 then enter_RunningNoCard m i else m
      if timeout_expired cfg m i.now then enter_RunningTimeout m i else m

/-- Construction of the FSM in service.run: a State object is built with
the class attributes auth_user_id = proxy_id = training_id = -1 and
user_authority_level = 0, both timers at `now0`, timeout_delta 0 and
grace_delta 2 seconds; its on_enter is Setup's, which (on the success
path) sets timeout_delta from the profile's timeout_minutes, grace_delta
from the configured grace_period, stores allow_proxy, and transitions to
IdleNoCard.  Setup failure (a raised exception) is an environment fault
outside this model. -/
def initMachine (cfg : Config) (now0 : Int) : Machine :=
  let m : Machine :=
    { state := .Setup, auth_user_id := -1, proxy_id := -1, training_id := -1,
      user_authority_level := 0, timeout_start := now0, grace_start := now0,
      timeout_delta := 0, grace_delta := 2, allow_proxy := cfg.allow_proxy,
      power := none, attempts := [], completions := [], shutdowns := [],
      emails := [], entered := [.Setup] }
  let m := { m with timeout_delta := 60 * cfg.timeout_minutes,
                    grace_delta := cfg.grace_period }
  enter_IdleNoCard m ⟨0, false, .INVALID_CARD, 0, false, now0⟩

/-- A sequence of FSM ticks, as performed by the supervisor loop. -/
def runFsm (cfg : Config) (m : Machine) (is : List InputData) : Machine :=
  is.foldl (fsm_call cfg) m

/-!  Database.py: the authorization check.  -/

/-- The fields of a backend card-details record consumed by
Database.is_user_authorized_for_equipment_type.  `none` models a JSON
null. -/
structure CardDetails where
  user_balance : Option ℚ
  user_auth : Option Int
  user_active : Option Int
deriving DecidableEq

/-- Database.is_user_authorized_for_equipment_type.  The source first
converts user_balance with float() and user_auth with int() — a null in
either raises a TypeError, embedded as Except.error — then returns False
for a null or non-1 user_active, then applies the profile policy
(requires_training / requires_payment are the integers cached from the
profile; Python truthiness is value-not-zero). -/
def is_user_authorized_for_equipment_type
    (requires_training requires_payment : Int) (cd : CardDetails) :
    Except Unit Bool :=
  match cd.user_balance with
  | none => Except.error ()
  | some balance =>
    match cd.user_auth with
    | none => Except.error ()
    | some user_auth =>
      match cd.user_active with
      | none => Except.ok false
      | some active =>
        if active ≠ 1 then Except.ok false
        else if requires_training ≠ 0 ∧ requires_payment ≠ 0 then
          Except.ok (decide (0 < balance) && decide (user_auth ≠ 0))
        else if requires_training ≠ 0 ∧ requires_payment = 0 then
          Except.ok (decide (user_auth ≠ 0))
        else if requires_training = 0 ∧ requires_payment ≠ 0 then
          Except.ok (decide (0 < balance))
        else Except.ok true

/-- The authorization rule as the spec's section 4.2 states it, for
comparison with the code: the conjunction of user_active = 1 with the
policy condition; a missing user_active yields false. -/
def spec_user_is_authorized (requires_training requires_payment : Bool)
    (user_active : Option Int) (user_auth : Int) (balance : ℚ) : Bool :=
  decide (user_active = some 1) &&
  (if requires_training && requires_payment then
     decide (user_auth ≠ 0) && decide (0 < balance)
   else if requires_training then decide (user_auth ≠ 0)
   else if requires_payment then decide (0 < balance)
   else true)

/-!  service.py: the supervisor loop of Service.run.  -/

/-- A Python value taking part in the supervisor loop's terminal-state
comparison: a state class object or a string literal. -/
inductive PyValue where
  | pyType (s : StateName)
  | pyStr (s : String)
deriving DecidableEq

/-- Python equality on such values: two class objects compare by identity,
two strings by content, and a class object never equals a string (no
matching dunder eq, so the default identity comparison applies and the
operands are distinct objects). -/
def pyEq : PyValue → PyValue → Bool
  | .pyType a, .pyType b => decide (a = b)
  | .pyStr a, .pyStr b => decide (a = b)
  | _, _ => false

/-- The loop-visible state of Service.run: the running flag and the FSM
object. -/
structure LoopState where
  running : Bool
  machine : Machine
deriving DecidableEq

/-- One iteration of the while-loop body of Service.run: one FSM tick,
then the terminal-state check, which the source writes as
`fsm.__class__ == "Shutdown"` — the class object itself compared against
the string "Shutdown". -/
def loopIteration (cfg : Config) (ls : LoopState) (i : InputData) : LoopState :=
  let m := fsm_call cfg ls.machine i
  { running := if pyEq (.pyType m.state) (.pyStr "Shutdown") then false
               else ls.running,
    machine := m }

/-!  Invariant predicates.  -/

/-- The states whose name the source prefixes with Running: the three
active-session states and the four grace/timeout states. -/
def runningFamily : StateName → Bool
  | .RunningAuthUser => true
  | .RunningProxyCard => true
  | .RunningTrainingCard => true
  | .RunningNoCard => true
  | .RunningUnknownCard => true
  | .RunningUnauthCard => true
  | .RunningTimeout => true
  | _ => false

/-- Power safety: the last value passed to set_equipment_power_on is True
only while the FSM is in a Running-family state. -/
def powerInv (m : Machine) : Prop :=
  m.power = some true → runningFamily m.state = true

/-- Mutual exclusion of the proxy and training sessions. -/
def mutexInv (m : Machine) : Prop :=
  (0 < m.proxy_id → m.training_id = 0) ∧ (0 < m.training_id → m.proxy_id = 0)

/-!  Concrete configurations, inputs and runs used by witnesses and
counterexamples.  `cfgA` is the profile of the spec's concrete scenarios:
timeout_minutes 30, allow_proxy 1, grace_period 2 s. -/

def cfgA : Config := ⟨30, 1, 2⟩

/-- A profile whose timeout_minutes is 0 (timeouts disabled). -/
def cfg0 : Config := ⟨0, 1, 2⟩

/-- Scenario 4 card: 900, USER, authorized, authority level 3. -/
def i900 : InputData := ⟨900, true, .USER_CARD, 3, false, 0⟩

/-- Card removed one second later. -/
def iAway : InputData := ⟨-1, false, .INVALID_CARD, 0, false, 1⟩

/-- Scenario 4 trainee card: 401, USER, not authorized, level 1, inserted
within the grace period. -/
def i401 : InputData := ⟨401, false, .USER_CARD, 1, false, 2⟩

/-- The same trainee card on the following tick. -/
def i401b : InputData := ⟨401, false, .USER_CARD, 1, false, 3⟩

/-- A proxy card read long after the grace period started. -/
def iLate300 : InputData := ⟨300, false, .PROXY_CARD, 0, false, 10⟩

/-- No card, read after the 30-minute timeout has expired. -/
def iAwayLate : InputData := ⟨-1, false, .INVALID_CARD, 0, false, 2000⟩

/-- A different authorized user card. -/
def i777 : InputData := ⟨777, true, .USER_CARD, 1, false, 3⟩

/-- A training-type card with a positive card ID. -/
def iTrain555 : InputData := ⟨555, false, .TRAINING_CARD, 0, false, 3⟩

/-- A proxy card still present after the timeout grace period expired. -/
def iProxy7 : InputData := ⟨7, false, .PROXY_CARD, 0, false, 10⟩

/-- After card 900: the FSM is in RunningAuthUser. -/
def mAuth : Machine := runFsm cfgA (initMachine cfgA 0) [i900]

/-- As mAuth but under the timeout-disabled profile. -/
def mAuth0 : Machine := runFsm cfg0 (initMachine cfg0 0) [i900]

/-- After card 900 then removal: the FSM is in RunningNoCard. -/
def mGrace : Machine := runFsm cfgA (initMachine cfgA 0) [i900, iAway]

/-- After card 900, removal, then card 401 in the grace period: the FSM is
in RunningUnknownCard. -/
def mUnknown : Machine := runFsm cfgA (initMachine cfgA 0) [i900, iAway, i401]

/-- mUnknown on a box whose profile forbids proxy cards. -/
def mNoProxy : Machine := { mUnknown with allow_proxy := 0 }

/-- A machine in RunningTimeout at the end of a proxy session: auth user
900 opened the session, proxy card 7 is in the box. -/
def mTimeoutProxy : Machine :=
  { state := .RunningTimeout, auth_user_id := 900, proxy_id := 7,
    training_id := 0, user_authority_level := 1, timeout_start := 0,
    grace_start := 0, timeout_delta := 1800, grace_delta := 2,
    allow_proxy := 1, power := some true,
    attempts := [(900, true), (7, true)], completions := [],
    shutdowns := [], emails := [], entered := [] }

/-- A machine whose FSM has reached the Shutdown state. -/
def mShut : Machine := { mTimeoutProxy with state := .Shutdown, power := some false }

/-- The supervisor loop with its running flag set, holding an FSM in
Shutdown. -/
def lsShut : LoopState := ⟨true, mShut⟩

/-- Proxy card 300 inserted within the grace period. -/
def i300 : InputData := ⟨300, false, .PROXY_CARD, 0, false, 2⟩

/-- The same proxy card on the following tick. -/
def i300b : InputData := ⟨300, false, .PROXY_CARD, 0, false, 3⟩

/-- Card removed at second 4. -/
def iAway4 : InputData := ⟨-1, false, .INVALID_CARD, 0, false, 4⟩

/-- After card 900, removal, proxy card 300 (two ticks): the FSM is in
RunningProxyCard with proxy_id 300. -/
def mProxy : Machine := runFsm cfgA (initMachine cfgA 0) [i900, iAway, i300, i300b]

/-- After the proxy card is removed again: the FSM is in RunningNoCard
while proxy_id is still 300. -/
def mProxyGrace : Machine :=
  runFsm cfgA (initMachine cfgA 0) [i900, iAway, i300, i300b, iAway4]

/-!  Helper lemmas: invariant preservation over single ticks and runs.  -/

/-- One tick preserves the power-safety invariant. -/
lemma powerInv_fsm_call (cfg : Config) (m : Machine) (i : InputData)
    (h : powerInv m) : powerInv (fsm_call cfg m i) := by
  obtain ⟨s, auth, proxy, train, lvl, ts, gs, td, gd, ap, pw, att, comp, sd, em, en⟩ := m
  unfold powerInv at h ⊢
  cases s <;>
    simp only [fsm_call, enter_IdleNoCard, enter_Shutdown, enter_RunningUnknownCard,
      enter_RunningAuthUser, enter_IdleUnauthCard, enter_AccessComplete,
      enter_IdleUnknownCard, enter_RunningNoCard, enter_RunningUnauthCard,
      enter_RunningTimeout, enter_IdleAuthCard, enter_RunningProxyCard,
      enter_RunningTrainingCard, enterState, runningFamily] at h ⊢ <;>
    (try split_ifs) <;> simp_all [runningFamily]

/-- One tick preserves mutual exclusion of proxy and training sessions. -/
lemma mutexInv_fsm_call (cfg : Config) (m : Machine) (i : InputData)
    (h : mutexInv m) : mutexInv (fsm_call cfg m i) := by
  obtain ⟨s, auth, proxy, train, lvl, ts, gs, td, gd, ap, pw, att, comp, sd, em, en⟩ := m
  unfold mutexInv at h ⊢
  cases s <;>
    simp only [fsm_call, enter_IdleNoCard, enter_Shutdown, enter_RunningUnknownCard,
      enter_RunningAuthUser, enter_IdleUnauthCard, enter_AccessComplete,
      enter_IdleUnknownCard, enter_RunningNoCard, enter_RunningUnauthCard,
      enter_RunningTimeout, enter_IdleAuthCard, enter_RunningProxyCard,
      enter_RunningTrainingCard, enterState] at h ⊢ <;>
    (try split_ifs) <;> simp_all

/-- The freshly constructed FSM (no power command issued yet) satisfies the
power-safety invariant. -/
lemma powerInv_init (cfg : Config) (t0 : Int) : powerInv (initMachine cfg t0) := by
  simp [powerInv, initMachine, enter_IdleNoCard, enterState]

/-- The freshly constructed FSM (proxy_id and training_id are -1) satisfies
mutual exclusion. -/
lemma mutexInv_init (cfg : Config) (t0 : Int) : mutexInv (initMachine cfg t0) := by
  constructor <;> intro h <;>
    simp [initMachine, enter_IdleNoCard, enterState] at h

/-- Any run preserves the power-safety invariant. -/
lemma powerInv_runFsm (cfg : Config) (m : Machine) (is : List InputData)
    (h : powerInv m) : powerInv (runFsm cfg m is) := by
  induction is generalizing m with
  | nil => exact h
  | cons i is ih => exact ih _ (powerInv_fsm_call cfg m i h)

/-- Any run preserves mutual exclusion. -/
lemma mutexInv_runFsm (cfg : Config) (m : Machine) (is : List InputData)
    (h : mutexInv m) : mutexInv (runFsm cfg m is) := by
  induction is generalizing m with
  | nil => exact h
  | cons i is ih => exact ih _ (mutexInv_fsm_call cfg m i h)

/-- A tick that leaves the Running family of states has switched the power
relay off: the only family exits are through AccessComplete or
IdleAuthCard, whose on_enter sets the power to False. -/
lemma power_off_on_family_exit (cfg : Config) (m : Machine) (i : InputData)
    (h1 : runningFamily m.state = true)
    (h2 : runningFamily (fsm_call cfg m i).state = false) :
    (fsm_call cfg m i).power = some false := by
  obtain ⟨s, auth, proxy, train, lvl, ts, gs, td, gd, ap, pw, att, comp, sd, em, en⟩ := m
  cases s <;>
    simp only [fsm_call, enter_IdleNoCard, enter_Shutdown, enter_RunningUnknownCard,
      enter_RunningAuthUser, enter_IdleUnauthCard, enter_AccessComplete,
      enter_IdleUnknownCard, enter_RunningNoCard, enter_RunningUnauthCard,
      enter_RunningTimeout, enter_IdleAuthCard, enter_RunningProxyCard,
      enter_RunningTrainingCard, enterState, runningFamily] at h1 h2 ⊢ <;>
    (try split_ifs at h2 ⊢) <;> simp_all [runningFamily]

/-!  The claims.  -/

/-- Claim C1 (code bug evaluated on the code): the supervisor loop of
Service.run never observes the terminal Shutdown state.  Its check
compares the class object with the string "Shutdown", which in Python is
always False, so one loop iteration never changes the running flag; in
particular with the FSM already in Shutdown the loop keeps running (and
keeps ticking the FSM), contradicting the claim that the loop stops
iterating once Shutdown is reached. -/
theorem C1_shutdown_not_observed :
    (∀ cfg ls i, (loopIteration cfg ls i).running = ls.running) ∧
    (loopIteration cfgA lsShut iProxy7).machine.state = .Shutdown ∧
    (loopIteration cfgA lsShut iProxy7).running = true := by
  refine ⟨fun cfg ls i => ?_, by decide, by decide⟩
  simp [loopIteration, pyEq]

/-- Claim C2, counterexample: in RunningUnknownCard a TRAINING_CARD with
card_id 555 > 0 matches none of the proxy, returning-auth-user or training
rows, yet the tick enters AccessComplete (and on to IdleNoCard) instead of
RunningUnauthCard, although card_id is positive. -/
theorem C2_cex :
    mUnknown.state = .RunningUnknownCard ∧ (0 : Int) < iTrain555.card_id ∧
    (fsm_call cfgA mUnknown iTrain555).state ≠ .RunningUnauthCard ∧
    StateName.AccessComplete ∈
      (fsm_call cfgA mUnknown iTrain555).entered.drop mUnknown.entered.length := by
  decide

/-- Claim C2 as amended: in RunningUnknownCard, unmatched USER_CARD and
PROXY_CARD inputs transition to RunningUnauthCard, while any other
card_type transitions to AccessComplete regardless of card_id. -/
theorem C2_unknown_card_dispatch (cfg : Config) (m : Machine) (i : InputData)
    (hs : m.state = .RunningUnknownCard) :
    ((i.card_type ≠ .PROXY_CARD ∧ i.card_type ≠ .USER_CARD) →
       (fsm_call cfg m i).entered = m.entered ++ [.AccessComplete, .IdleNoCard] ∧
       (fsm_call cfg m i).state = .IdleNoCard) ∧
    ((i.card_type = .USER_CARD ∧ i.card_id ≠ m.auth_user_id ∧
        ¬(3 ≤ m.user_authority_level ∧ m.proxy_id ≤ 0 ∧
          (m.training_id ≤ 0 ∨ m.training_id = i.card_id) ∧
          i.user_is_authorized = false)) →
       (fsm_call cfg m i).state = .RunningUnauthCard) ∧
    ((i.card_type = .PROXY_CARD ∧ ¬(m.allow_proxy = 1 ∧ m.training_id ≤ 0)) →
       (fsm_call cfg m i).state = .RunningUnauthCard) := by
  refine ⟨fun ⟨hp, hu⟩ => ?_, fun ⟨hu, hne, hcond⟩ => ?_, fun ⟨hp, hcond⟩ => ?_⟩
  · simp [fsm_call, hs, hp, hu, enter_AccessComplete, enter_IdleNoCard, enterState]
  · simp [fsm_call, hs, hu, hne, hcond, enter_RunningUnauthCard, enterState]
  · simp [fsm_call, hs, hp, hcond, enter_RunningUnauthCard, enterState]

/-- Witness for C2: a non-user non-proxy card reaches IdleNoCard through
AccessComplete, an unmatched user card reaches RunningUnauthCard, and a
proxy card on a box that forbids proxies reaches RunningUnauthCard. -/
theorem C2_witness :
    (fsm_call cfgA mUnknown iTrain555).state = .IdleNoCard ∧
    (fsm_call cfgA mUnknown i777).state = .RunningUnauthCard ∧
    (fsm_call cfgA mNoProxy iLate300).state = .RunningUnauthCard := by
  refine ⟨((C2_unknown_card_dispatch cfgA mUnknown iTrain555 (by decide)).1
      ⟨by decide, by decide⟩).2, ?_, ?_⟩
  · exact (C2_unknown_card_dispatch cfgA mUnknown i777 (by decide)).2.1
      ⟨by decide, by decide, by decide⟩
  · exact (C2_unknown_card_dispatch cfgA mNoProxy iLate300 (by decide)).2.2
      ⟨by decide, by decide⟩

/-- Claim C3, counterexample: from the reachable RunningNoCard state, one
tick that sees a new card while the grace period has expired enters both
RunningUnknownCard and AccessComplete — two transition rows of the same
state fire in a single tick. -/
theorem C3_cex :
    (runFsm cfgA (initMachine cfgA 0) [i900, iAway]).state = .RunningNoCard ∧
    StateName.RunningUnknownCard ∈
      (fsm_call cfgA mGrace iLate300).entered.drop mGrace.entered.length ∧
    StateName.AccessComplete ∈
      (fsm_call cfgA mGrace iLate300).entered.drop mGrace.entered.length := by
  decide

/-- Claim C3 as amended: the transition rows are independent if-statements,
so one tick can chain two rows: in RunningNoCard a new card together with
an expired grace period goes through RunningUnknownCard to AccessComplete
and IdleNoCard, and in RunningAuthUser a removed card together with an
expired timeout goes through RunningNoCard to RunningTimeout. -/
theorem C3_chained_rows (cfg : Config) (m : Machine) (i : InputData) :
    (m.state = .RunningNoCard → 0 < i.card_id → i.card_type ≠ .INVALID_CARD →
      grace_expired m i.now = true → i.button_pressed = false →
      (fsm_call cfg m i).entered =
        m.entered ++ [.RunningUnknownCard, .AccessComplete, .IdleNoCard] ∧
      (fsm_call cfg m i).state = .IdleNoCard) ∧
    (m.state = .RunningAuthUser → i.card_id ≤ 0 →
      timeout_expired cfg m i.now = true →
      (fsm_call cfg m i).entered = m.entered ++ [.RunningNoCard, .RunningTimeout] ∧
      (fsm_call cfg m i).state = .RunningTimeout) := by
  obtain ⟨s, auth, proxy, train, lvl, ts, gs, td, gd, ap, pw, att, comp, sd, em, en⟩ := m
  obtain ⟨cid, uia, ct, ual, bp, now⟩ := i
  constructor
  · intro hs h1 h2 h3 h4
    simp only at hs h1 h2 h3 h4
    subst hs
    subst h4
    simp_all [fsm_call, grace_expired, enter_RunningUnknownCard, enter_AccessComplete,
      enter_IdleNoCard, enterState]
  · intro hs h1 h2
    simp only at hs h1 h2
    subst hs
    simp_all [fsm_call, timeout_expired, enter_RunningNoCard, enter_RunningTimeout,
      enterState]

/-- Witness for C3: both chains happen on concrete reachable machines. -/
theorem C3_witness :
    (fsm_call cfgA mGrace iLate300).entered =
      mGrace.entered ++ [.RunningUnknownCard, .AccessComplete, .IdleNoCard] ∧
    (fsm_call cfgA mAuth iAwayLate).state = .RunningTimeout := by
  constructor
  · exact ((C3_chained_rows cfgA mGrace iLate300).1 (by decide) (by decide)
      (by decide) (by decide) (by decide)).1
  · exact ((C3_chained_rows cfgA mAuth iAwayLate).2 (by decide) (by decide)
      (by decide)).2

/-- Claim C4, counterexample: entering IdleAuthCard from RunningTimeout
with proxy_id 7 > 0 and training_id 0 sends two notifications — the proxy
notification to auth user 900 and a card-left notification to the holder
of the present card 7 — not exactly one. -/
theorem C4_cex :
    mTimeoutProxy.state = .RunningTimeout ∧
    mTimeoutProxy.proxy_id = 7 ∧ mTimeoutProxy.training_id = 0 ∧
    (fsm_call cfgA mTimeoutProxy iProxy7).state = .IdleAuthCard ∧
    (fsm_call cfgA mTimeoutProxy iProxy7).emails =
      [EmailEvent.proxyLeft 900, EmailEvent.cardLeft 7] := by
  decide

/-- Claim C4 as amended: on entering IdleAuthCard the proxy notification is
an independent if: it is sent whenever proxy_id > 0, and in addition
either the training notification (training_id > 0) or the card-left
notification (otherwise) is sent; with proxy_id > 0 and training_id ≤ 0
both the proxy and the card-left notifications go out. -/
theorem C4_notifications (m : Machine) (i : InputData) :
    (enter_IdleAuthCard m i).emails =
      (if 0 < m.proxy_id then m.emails ++ [EmailEvent.proxyLeft m.auth_user_id]
       else m.emails) ++
      (if 0 < m.training_id then
         [EmailEvent.trainingLeft m.auth_user_id m.training_id]
       else [EmailEvent.cardLeft i.card_id]) := by
  obtain ⟨s, auth, proxy, train, lvl, ts, gs, td, gd, ap, pw, att, comp, sd, em, en⟩ := m
  simp only [enter_IdleAuthCard, enterState]
  split_ifs <;> simp

/-- Claim C5, counterexample: after an authorized session's card is removed
the FSM reaches RunningNoCard while the last value passed to
set_equipment_power_on is still True — power is ON outside the three
states named by the claim. -/
theorem C5_cex :
    (runFsm cfgA (initMachine cfgA 0) [i900, iAway]).state = .RunningNoCard ∧
    (runFsm cfgA (initMachine cfgA 0) [i900, iAway]).power = some true := by
  decide

/-- Claim C5 as amended: over every input sequence from Setup, power is ON
only while the FSM is in a Running-family state (the three active states
or the grace states RunningNoCard, RunningUnknownCard, RunningUnauthCard,
RunningTimeout), and every tick that leaves the Running family has issued
a power-OFF at the destination's on_enter (directly or via
AccessComplete). -/
theorem C5_power_safety (cfg : Config) (t0 : Int) (is : List InputData) :
    powerInv (runFsm cfg (initMachine cfg t0) is) ∧
    (∀ m i, runningFamily m.state = true →
       runningFamily (fsm_call cfg m i).state = false →
       (fsm_call cfg m i).power = some false) :=
  ⟨powerInv_runFsm cfg _ is (powerInv_init cfg t0),
   fun m i h1 h2 => power_off_on_family_exit cfg m i h1 h2⟩

/-- Witness for C5: the reachable RunningNoCard machine is in the Running
family, and the tick that leaves the family (grace expired) has the power
off. -/
theorem C5_witness :
    runningFamily mGrace.state = true ∧
    (fsm_call cfgA mGrace iLate300).power = some false :=
  ⟨(C5_power_safety cfgA 0 [i900, iAway]).1 (by decide),
   (C5_power_safety cfgA 0 [i900, iAway]).2 mGrace iLate300 (by decide) (by decide)⟩

/-- Claim C6: for a card-details record whose user_balance, user_auth and
user_active fields are numeric (or user_active missing), the computed
user_is_authorized equals the conjunction of user_active = 1 with the
profile-policy condition of the spec, and a missing user_active yields
false. -/
theorem C6_authorization_rule (rt rp : Int) (hrt : rt = 0 ∨ rt = 1)
    (hrp : rp = 0 ∨ rp = 1) (act : Option Int) (a : Int) (b : ℚ) :
    is_user_authorized_for_equipment_type rt rp ⟨some b, some a, act⟩ =
      Except.ok (spec_user_is_authorized (decide (rt = 1)) (decide (rp = 1))
        act a b) := by
  rcases hrt with h | h <;> rcases hrp with h2 | h2 <;> subst h <;> subst h2 <;>
    cases act <;>
    simp [is_user_authorized_for_equipment_type, spec_user_is_authorized,
      Bool.and_comm] <;>
    (try split_ifs) <;> simp_all [Bool.and_comm]

/-- Witness for C6 at requires_training 1, requires_payment 0, an active
authorized user with balance 5. -/
theorem C6_witness :
    ((1 : Int) = 0 ∨ (1 : Int) = 1) ∧ ((0 : Int) = 0 ∨ (0 : Int) = 1) ∧
    is_user_authorized_for_equipment_type 1 0 ⟨some 5, some 1, some 1⟩ =
      Except.ok (spec_user_is_authorized (decide ((1 : Int) = 1))
        (decide ((0 : Int) = 1)) (some 1) 1 5) :=
  ⟨Or.inr rfl, Or.inl rfl,
   C6_authorization_rule 1 0 (Or.inr rfl) (Or.inl rfl) (some 1) 1 5⟩

/-- Claim C7: with timeout_minutes = 0, timeout_expired never returns true,
and no tick from RunningAuthUser, RunningProxyCard or RunningTrainingCard
ever reaches RunningTimeout. -/
theorem C7_timeout_disabled (cfg : Config) (h : cfg.timeout_minutes = 0) :
    (∀ m now, timeout_expired cfg m now = false) ∧
    (∀ m i, (m.state = .RunningAuthUser ∨ m.state = .RunningProxyCard ∨
             m.state = .RunningTrainingCard) →
       (fsm_call cfg m i).state ≠ .RunningTimeout) := by
  have hte : ∀ (m : Machine) (now : Int), timeout_expired cfg m now = false := by
    intro m now
    simp [timeout_expired, h]
  refine ⟨hte, fun m i hs => ?_⟩
  obtain ⟨s, auth, proxy, train, lvl, ts, gs, td, gd, ap, pw, att, comp, sd, em, en⟩ := m
  rcases hs with h1 | h1 | h1 <;> (simp only at h1; subst h1) <;>
    simp [fsm_call, hte, enter_RunningNoCard, enterState] <;>
    split_ifs <;> simp

/-- Witness for C7 on the timeout-disabled profile: the timer never expires
even far in the future, and the tick from RunningAuthUser does not reach
RunningTimeout. -/
theorem C7_witness :
    timeout_expired cfg0 mAuth0 5000 = false ∧
    (fsm_call cfg0 mAuth0 iAwayLate).state ≠ .RunningTimeout :=
  ⟨(C7_timeout_disabled cfg0 rfl).1 mAuth0 5000,
   (C7_timeout_disabled cfg0 rfl).2 mAuth0 iAwayLate (Or.inl (by decide))⟩

/-- Claim C8: in RunningUnknownCard, a USER_CARD differing from
auth_user_id, with stored session authority level at least 3, proxy_id at
most 0, training_id at most 0 or equal to the card, and an unauthorized
card, transitions to RunningTrainingCard, logging a successful access
attempt when the training card is new. -/
theorem C8_training_row (cfg : Config) (m : Machine) (i : InputData)
    (h1 : m.state = .RunningUnknownCard) (h2 : i.card_type = .USER_CARD)
    (h3 : i.card_id ≠ m.auth_user_id) (h4 : 3 ≤ m.user_authority_level)
    (h5 : m.proxy_id ≤ 0) (h6 : m.training_id ≤ 0 ∨ m.training_id = i.card_id)
    (h7 : i.user_is_authorized = false) :
    (fsm_call cfg m i).state = .RunningTrainingCard ∧
    (m.training_id ≠ i.card_id →
       (fsm_call cfg m i).attempts = m.attempts ++ [(i.card_id, true)]) := by
  have hc : m.user_authority_level ≥ 3 ∧ m.proxy_id ≤ 0 ∧
      (m.training_id ≤ 0 ∨ m.training_id = i.card_id) ∧
      ¬(i.user_is_authorized = true) := ⟨h4, h5, h6, by simp [h7]⟩
  constructor
  · simp only [fsm_call, h1, h2]
    simp [h3, hc, enter_RunningTrainingCard, enterState]
    split_ifs <;> rfl
  · intro h8
    rcases h6 with h6a | h6a
    · simp only [fsm_call, h1, h2]
      simp [h3, hc, h8, h6a, enter_RunningTrainingCard, enterState]
    · exact absurd h6a h8

/-- Witness for C8, the spec's scenario 4: authorized level-3 card 900
opened the session, the unauthorized card 401 inserted within the grace
period brings the FSM to RunningTrainingCard and logs
log_access_attempt(401, _, true). -/
theorem C8_witness :
    mUnknown.state = .RunningUnknownCard ∧
    i401b.card_id ≠ mUnknown.auth_user_id ∧
    3 ≤ mUnknown.user_authority_level ∧
    mUnknown.proxy_id ≤ 0 ∧ mUnknown.training_id ≤ 0 ∧
    i401b.user_is_authorized = false ∧
    (fsm_call cfgA mUnknown i401b).state = .RunningTrainingCard ∧
    (fsm_call cfgA mUnknown i401b).attempts = mUnknown.attempts ++ [(401, true)] := by
  refine ⟨by decide, by decide, by decide, by decide, by decide, by decide, ?_, ?_⟩
  · exact (C8_training_row cfgA mUnknown i401b (by decide) (by decide) (by decide)
      (by decide) (by decide) (Or.inl (by decide)) (by decide)).1
  · exact (C8_training_row cfgA mUnknown i401b (by decide) (by decide) (by decide)
      (by decide) (by decide) (Or.inl (by decide)) (by decide)).2 (by decide)

/-- Claim C9, counterexample: in the initial IdleNoCard state — outside
RunningProxyCard and RunningTrainingCard, before any session — proxy_id
and training_id are -1, not 0; and after a proxy session's card is removed
the FSM sits in RunningNoCard with proxy_id still 300 > 0. -/
theorem C9_cex :
    (initMachine cfgA 0).state = .IdleNoCard ∧
    (initMachine cfgA 0).proxy_id = -1 ∧
    (initMachine cfgA 0).training_id = -1 ∧
    mProxyGrace.state = .RunningNoCard ∧
    mProxyGrace.proxy_id = 300 := by
  decide

/-- Claim C9 as amended: over every input sequence from Setup, at every
tick boundary proxy_id > 0 implies training_id = 0 and training_id > 0
implies proxy_id = 0 (mutual exclusion holds, though the fields are not 0
outside the corresponding Running states). -/
theorem C9_mutual_exclusion (cfg : Config) (t0 : Int) (is : List InputData) :
    mutexInv (runFsm cfg (initMachine cfg t0) is) :=
  mutexInv_runFsm cfg _ is (mutexInv_init cfg t0)

/-- Witness for C9: in the reachable RunningProxyCard state with proxy_id
300 > 0, mutual exclusion gives training_id = 0. -/
theorem C9_witness : mProxy.training_id = 0 :=
  (C9_mutual_exclusion cfgA 0 [i900, iAway, i300, i300b]).1 (by decide)

/-- Claim C10: the authorization check converts user_balance and user_auth
before examining user_active, so a record with null user_active and a null
user_balance or user_auth raises (Except.error) instead of returning
false; the missing-user_active-yields-false behavior holds exactly when
balance and auth are present. -/
theorem C10_conversion_order (rt rp : Int) (a : Option Int) (b : ℚ) (v : Int) :
    is_user_authorized_for_equipment_type rt rp ⟨none, a, none⟩ =
      Except.error () ∧
    is_user_authorized_for_equipment_type rt rp ⟨some b, none, none⟩ =
      Except.error () ∧
    is_user_authorized_for_equipment_type rt rp ⟨some b, some v, none⟩ =
      Except.ok false :=
  ⟨rfl, rfl, rfl⟩

end PortalBox
